import Mathlib

/-!
Verification development for `search_main.py`, a browser-automation script
that, for each row of a CSV table, searches a contracts website for the
row's company name and records a `"True"`/`"False"` status.

The per-row control flow of `run` (navigation with fallback, input wait,
fill with fallback chain, submit, classification, save, throttle delay) is
embedded as a pure function of the row's company cell and a `RowEnv`
describing the outcome of every external interaction of that row
(success / Playwright timeout / other exception).  External calls are also
recorded as an `Effect` trace so that statements about which interactions
happen (and in which order) can be proved.  The surrounding loop, the
interrupt flag, the CSV load, and the browser-engine selection are embedded
likewise.
-/

namespace SearchBot

/-- One CSV cell as pandas (`read_csv(..., dtype=str)`) delivers it:
`none` models NaN (a missing or empty field), `some s` a string value. -/
abbrev Cell := Option String

/-- A table row: the configured company-name column, the `status` column,
and the values of all remaining columns. -/
structure Row where
  company : Cell
  status : String
  rest : List Cell
  deriving DecidableEq, Repr

/-- In-memory dataframe plus the last table successfully written to the
output path (`none` when no write has succeeded yet). -/
structure RunState where
  table : List Row
  file : Option (List Row)
  deriving DecidableEq, Repr

/-- Kind of exception an external call can raise: a Playwright
`TimeoutError` or any other exception. -/
inductive Exc
  | timeout
  | other
  deriving DecidableEq, Repr

/-- The outcome of every external interaction of one row, fixed up front:
the embedding of the row body is a pure function of this record.
Fields default to the all-success outcome. -/
structure RowEnv where
  /-- `page.goto(URL, wait_until="networkidle")` outcome. -/
  navErr : Option Exc := none
  /-- whether the fallback `page.goto(URL, wait_until="domcontentloaded")`
  succeeds (it is only attempted after a timeout of the first goto, and is
  not guarded by any handler). -/
  navFallbackOk : Bool := true
  /-- `page.wait_for_selector(INPUT_SELECTOR)` outcome. -/
  inputWaitErr : Option Exc := none
  /-- whether `page.fill(INPUT_SELECTOR, company)` succeeds. -/
  fillOk : Bool := true
  /-- whether the fallback `page.click(INPUT_SELECTOR)` succeeds. -/
  clickOk : Bool := true
  /-- whether `page.keyboard.press("Control+A")` succeeds. -/
  ctrlAOk : Bool := true
  /-- whether the unguarded `page.keyboard.type(company)` succeeds. -/
  typeOk : Bool := true
  /-- `page.wait_for_selector(SUBMIT_SELECTOR)` outcome. -/
  submitWaitErr : Option Exc := none
  /-- `page.click(SUBMIT_SELECTOR)` outcome. -/
  submitClickErr : Option Exc := none
  /-- `page.wait_for_selector(RESULT_LABEL_SELECTOR)` outcome. -/
  labelWaitErr : Option Exc := none
  /-- result of `locator(RESULT_LABEL_SELECTOR).inner_text()`:
  `none` when the read raises (the code then uses `""`). -/
  labelText : Option String := none
  /-- `page.wait_for_selector(NO_RESULTS_SELECTOR)` outcome. -/
  noResultsWaitErr : Option Exc := none
  /-- whether `df.to_csv(output_csv)` succeeds for this row. -/
  saveOk : Bool := true
  deriving DecidableEq, Repr

/-- External interactions a row performs, in order. -/
inductive Effect
  | navigate
  | waitInput
  | fill
  | click
  | focus
  | keyPress (k : String)
  | typeText
  | waitSubmit
  | waitLabel
  | readText
  | waitNoResults
  | save (ok : Bool)
  | sleep (ms : Nat)
  deriving DecidableEq, Repr

/-- Whether an effect is a browser interaction (as opposed to writing the
CSV or sleeping). -/
def Effect.isBrowser : Effect → Bool
  | .save _ => false
  | .sleep _ => false
  | _ => true

/-- How a row path reaches `df.to_csv`: not at all (the row aborts with an
exception before saving), through one of the unguarded early-exit calls
(lines 74, 89, 98), or through the guarded call after classification
(lines 174-177, followed by `time.sleep(0.6)`). -/
inductive SaveKind
  | noSave
  | unguarded
  | guarded
  deriving DecidableEq, Repr

/-- What one row body decides to do, before the state is updated:
the effect trace up to (not including) the save, the status value written
into the dataframe (if any), and how the save is reached. -/
structure Decision where
  effects : List Effect
  statusWritten : Option String
  save : SaveKind
  deriving DecidableEq, Repr

/-- `str(cell or "")`: NaN is truthy in Python, so a NaN cell yields the
literal string `"nan"`; a string cell yields itself (for `""` the `or`
branch yields `""` again). -/
def pyCell : Cell → String
  | none => "nan"
  | some s => s

/-- Python's `str.strip()` on the underlying character list: drop leading
and trailing whitespace. -/
def stripChars (l : List Char) : List Char :=
  ((l.dropWhile Char.isWhitespace).reverse.dropWhile Char.isWhitespace).reverse

/-- Python's `s.strip()`. -/
def pyStrip (s : String) : String := String.mk (stripChars s.data)

/-- Python's `s.lower()` (the names involved are basic latin). -/
def pyLower (s : String) : String := String.mk (s.data.map Char.toLower)

/-- `company = str(row.get(column) or "").strip()`. -/
def companyOf (r : Row) : String := pyStrip (pyCell r.company)

/-- The fixed phrase the results label is compared against. -/
def expectedLabel : String := "Prime Award Results"

/-- Python's `needle in hay` substring test, on the underlying character
lists. -/
def strContains (needle hay : String) : Bool :=
  decide (needle.toList <:+: hay.toList)

/-- Effects of the fill step: `page.fill`, falling back (on failure) to
click / focus, select-all (`Control+A`, then `Meta+A`), and `keyboard.type`. -/
def fillEffects (env : RowEnv) : List Effect :=
  if env.fillOk then [Effect.fill]
  else
    [Effect.fill, Effect.click]
      ++ (if env.clickOk then [] else [Effect.focus])
      ++ [Effect.keyPress "Control+A"]
      ++ (if env.ctrlAOk then [] else [Effect.keyPress "Meta+A"])
      ++ [Effect.typeText]

/-- Classification step (lines 145-170): wait for the results label; if it
appears, read its text (an unreadable text counts as `""`) and test whether
it contains the expected phrase; on timeout wait for the no-results
message; a non-timeout error there propagates (only `PlaywrightTimeoutError`
is caught inside the timeout handler), while a non-timeout error of the
label wait itself is caught by the final `except Exception` and yields
`"False"`. -/
def classifyD (env : RowEnv) (pre : List Effect) : Decision :=
  match env.labelWaitErr with
  | none =>
      let text := match env.labelText with
        | none => ""
        | some t => pyStrip t
      ⟨pre ++ [Effect.waitLabel, Effect.readText],
        some (if strContains expectedLabel text then "True" else "False"),
        SaveKind.guarded⟩
  | some Exc.timeout =>
      match env.noResultsWaitErr with
      | some Exc.other =>
          ⟨pre ++ [Effect.waitLabel, Effect.waitNoResults], none, SaveKind.noSave⟩
      | _ =>
          ⟨pre ++ [Effect.waitLabel, Effect.waitNoResults], some "False",
            SaveKind.guarded⟩
  | some Exc.other =>
      ⟨pre ++ [Effect.waitLabel], some "False", SaveKind.guarded⟩

/-- Submit step then classification (lines 134-170): wait for the submit
control (a timeout is tolerated, any other error propagates); if it
appeared, click it (a click timeout is tolerated, any other error
propagates). -/
def finishD (env : RowEnv) (pre : List Effect) : Decision :=
  match env.submitWaitErr with
  | some Exc.other => ⟨pre ++ [Effect.waitSubmit], none, SaveKind.noSave⟩
  | some Exc.timeout => classifyD env (pre ++ [Effect.waitSubmit])
  | none =>
      match env.submitClickErr with
      | some Exc.other =>
          ⟨pre ++ [Effect.waitSubmit, Effect.click], none, SaveKind.noSave⟩
      | _ => classifyD env (pre ++ [Effect.waitSubmit, Effect.click])

/-- Input wait, fill, settle delay and Enter (lines 92-131): an input-wait
timeout marks `False` and saves (unguarded); a non-timeout input-wait error
propagates; if `page.fill` fails and the final `keyboard.type` fallback also
fails, the exception propagates (that call is not guarded). -/
def afterNavD (env : RowEnv) (pre : List Effect) : Decision :=
  match env.inputWaitErr with
  | some Exc.timeout =>
      ⟨pre ++ [Effect.waitInput], some "False", SaveKind.unguarded⟩
  | some Exc.other => ⟨pre ++ [Effect.waitInput], none, SaveKind.noSave⟩
  | none =>
      if !env.fillOk && !env.typeOk then
        ⟨pre ++ [Effect.waitInput] ++ fillEffects env, none, SaveKind.noSave⟩
      else
        finishD env
          (pre ++ [Effect.waitInput] ++ fillEffects env
            ++ [Effect.sleep 200, Effect.keyPress "Enter"])

/-- The whole row body as a decision (lines 70-180): empty/whitespace
company marks `False` and saves (unguarded); a navigation timeout retries
with the unguarded fallback goto; a non-timeout navigation error marks
`False` and saves (unguarded). -/
def rowDecision (env : RowEnv) (company : String) : Decision :=
  if company = "" then ⟨[], some "False", SaveKind.unguarded⟩
  else
    match env.navErr with
    | some Exc.other =>
        ⟨[Effect.navigate], some "False", SaveKind.unguarded⟩
    | some Exc.timeout =>
        if env.navFallbackOk then
          afterNavD env [Effect.navigate, Effect.navigate]
        else ⟨[Effect.navigate, Effect.navigate], none, SaveKind.noSave⟩
    | none => afterNavD env [Effect.navigate]

/-- Write status `s` into row `idx` of the table (`df.loc[idx, "status"]`);
all other rows and all other fields are untouched. -/
def setStatus : List Row → Nat → String → List Row
  | [], _, _ => []
  | r :: rs, 0, s => { r with status := s } :: rs
  | r :: rs, n + 1, s => r :: setStatus rs n s

/-- `df.to_csv(output_csv)`: on success the file now holds the current
table, on failure the file is unchanged. -/
def saveTable (ok : Bool) (st : RunState) : RunState :=
  if ok then { st with table := st.table, file := some st.table } else st

/-- Result of one loop iteration: new state, effect trace of the row,
whether an exception propagated out of the row body, and the status the row
wrote into the dataframe (if any). -/
structure RowOutcome where
  st : RunState
  effects : List Effect
  aborted : Bool
  statusWritten : Option String
  deriving DecidableEq, Repr

/-- Apply a row decision to the state: write the status (if any), then run
the save according to its kind.  An unguarded save aborts on failure; the
guarded save swallows failure and is followed by the 0.6 s throttle
delay. -/
def applyDecision (env : RowEnv) (idx : Nat) (st : RunState) (d : Decision) :
    RowOutcome :=
  let st1 : RunState :=
    match d.statusWritten with
    | none => st
    | some s => { st with table := setStatus st.table idx s, file := st.file }
  match d.save with
  | SaveKind.noSave => ⟨st1, d.effects, true, d.statusWritten⟩
  | SaveKind.unguarded =>
      ⟨saveTable env.saveOk st1, d.effects ++ [Effect.save env.saveOk],
        !env.saveOk, d.statusWritten⟩
  | SaveKind.guarded =>
      ⟨saveTable env.saveOk st1,
        d.effects ++ [Effect.save env.saveOk, Effect.sleep 600],
        false, d.statusWritten⟩

/-- One full loop iteration for the row at `idx`. -/
def processRow (env : RowEnv) (idx : Nat) (st : RunState) : RowOutcome :=
  match st.table[idx]? with
  | none => ⟨st, [], false, none⟩
  | some row => applyDecision env idx st (rowDecision env (companyOf row))

/-- How the loop over rows ended. -/
inductive LoopExit
  | normal
  | stoppedAt (idx : Nat)
  | abortedAt (idx : Nat)
  deriving DecidableEq, Repr

/-- The row loop (lines 65-180): at the top of each iteration the interrupt
flag is consulted (`flag idx` is its value when iteration `idx` starts);
if set, the loop breaks; otherwise the row is processed, and an exception
propagating out of the row body ends the whole loop. -/
def runLoopFrom (envs : Nat → RowEnv) (flag : Nat → Bool) :
    Nat → Nat → RunState → RunState × List Effect × LoopExit
  | 0, _, st => (st, [], LoopExit.normal)
  | Nat.succ count, idx, st =>
      if flag idx then (st, [], LoopExit.stoppedAt idx)
      else
        let o := processRow (envs idx) idx st
        if o.aborted then (o.st, o.effects, LoopExit.abortedAt idx)
        else
          let r := runLoopFrom envs flag count (idx + 1) o.st
          (r.1, o.effects ++ r.2.1, r.2.2)

/-- The loaded input table: whether the configured company column exists,
whether a `status` column already exists, and the rows (whose `status`
field is the input's status cell when that column exists). -/
structure InputTable where
  hasCompanyCol : Bool
  hasStatusCol : Bool
  rows : List Row
  deriving DecidableEq, Repr

/-- `if "status" not in df.columns: df["status"] = ""`. -/
def prepare (inp : InputTable) : List Row :=
  if inp.hasStatusCol then inp.rows
  else inp.rows.map fun r => { r with status := "" }

/-- The `run` function after the CSV has been read: a missing company
column raises `RuntimeError` before any row is processed and before any
output is written (modelled as `none`); otherwise the loop runs over all
rows starting from an output file that has not been written. -/
def run (inp : InputTable) (envs : Nat → RowEnv) (flag : Nat → Bool) :
    Option (RunState × List Effect × LoopExit) :=
  if inp.hasCompanyCol then
    some (runLoopFrom envs flag (prepare inp).length 0 ⟨prepare inp, none⟩)
  else none

/-- Process-wide state visible to the signal handler: the interrupt flag
and everything else (table and output file). -/
structure ProcState where
  interrupted : Bool
  runSt : RunState
  deriving DecidableEq, Repr

/-- `_signal_handler` (lines 31-34): sets the interrupt flag and prints;
it touches nothing else. -/
def signalHandler (s : ProcState) : ProcState :=
  { s with interrupted := true }

/-- The flag schedule produced by a termination signal delivered before
iteration `n` starts (and never cleared). -/
def flagFrom (n : Nat) : Nat → Bool := fun i => decide (n ≤ i)

/-- The never-interrupted schedule. -/
def noFlag : Nat → Bool := fun _ => false

/-- An uninterrupted run truncated to its first `n` loop iterations
(state and effects only). -/
def runTrunc (inp : InputTable) (envs : Nat → RowEnv) (n : Nat) :
    Option (RunState × List Effect) :=
  if inp.hasCompanyCol then
    some
      (let r := runLoopFrom envs noFlag (min (prepare inp).length n) 0
        ⟨prepare inp, none⟩
       (r.1, r.2.1))
  else none

/-- Browser engines selectable in `run`. -/
inductive Engine
  | chromium
  | firefox
  | webkit
  deriving DecidableEq, Repr

/-- The engine dictionary lookup (lines 54-58):
`{...}.get(browser_name.lower(), p.chromium)`. -/
def browserLauncher (name : String) : Engine :=
  match pyLower name with
  | "chromium" => Engine.chromium
  | "firefox" => Engine.firefox
  | "webkit" => Engine.webkit
  | _ => Engine.chromium

/-- The `--browser` choices of `parse_args` (line 204). -/
def browserChoices : List String := ["chromium", "firefox", "webkit"]

/-- Whether argparse accepts a given `--browser` value. -/
def cliAcceptsBrowser (s : String) : Bool := browserChoices.contains s

/-- The environment precondition under which no exception escapes a row
body: the fallback goto is only needed when it succeeds, selector waits
and the submit click fail only by timeout, the unguarded type fallback is
only needed when it succeeds, the no-results wait fails only by timeout,
and `to_csv` succeeds (the early-exit saves are unguarded). -/
def envSafe (env : RowEnv) : Prop :=
  (env.navErr = some Exc.timeout → env.navFallbackOk = true) ∧
  env.inputWaitErr ≠ some Exc.other ∧
  (env.fillOk = false → env.typeOk = true) ∧
  env.submitWaitErr ≠ some Exc.other ∧
  (env.submitWaitErr = none → env.submitClickErr ≠ some Exc.other) ∧
  (env.labelWaitErr = some Exc.timeout → env.noResultsWaitErr ≠ some Exc.other) ∧
  env.saveOk = true

instance (env : RowEnv) : Decidable (envSafe env) := by
  unfold envSafe; infer_instance

/-- The company-name and non-status cells of a row (everything the loop
never writes to). -/
def nonStatus (r : Row) : Cell × List Cell := (r.company, r.rest)

/-- Loop invariant after `k` rows have been handled without abort, starting
from table `t0`: the table still has `t0`'s length, rows not yet reached
are untouched, every handled row carries status `"True"` or `"False"`, and
the output file holds exactly the current table as soon as one row has been
handled (and is unwritten before that). -/
def Inv (t0 : List Row) (k : Nat) (st : RunState) : Prop :=
  st.table.length = t0.length ∧
  (∀ j : Nat, k ≤ j → st.table[j]? = t0[j]?) ∧
  (∀ j : Nat, j < k →
    ((st.table[j]?).map Row.status = some "True" ∨
     (st.table[j]?).map Row.status = some "False")) ∧
  (k = 0 → st.file = none) ∧
  (0 < k → st.file = some st.table)

/-!
### Basic lemmas about the state-updating primitives
-/

lemma setStatus_length (t : List Row) (i : Nat) (s : String) :
    (setStatus t i s).length = t.length := by
  induction t generalizing i with
  | nil => rfl
  | cons r rs ih => cases i <;> simp [setStatus, ih]

lemma setStatus_getElem?_ne (t : List Row) (i j : Nat) (s : String)
    (h : j ≠ i) : (setStatus t i s)[j]? = t[j]? := by
  induction t generalizing i j with
  | nil => rfl
  | cons r rs ih =>
    cases i with
    | zero =>
      cases j with
      | zero => exact absurd rfl h
      | succ j => simp [setStatus]
    | succ i =>
      cases j with
      | zero => simp [setStatus]
      | succ j => simpa [setStatus] using ih i j (fun hh => h (by omega))

lemma setStatus_getElem?_self (t : List Row) (i : Nat) (s : String) :
    (setStatus t i s)[i]? = t[i]?.map fun r => { r with status := s } := by
  induction t generalizing i with
  | nil => rfl
  | cons r rs ih =>
    cases i with
    | zero => simp [setStatus]
    | succ i => simpa [setStatus] using ih i

lemma setStatus_nonStatus (t : List Row) (i : Nat) (s : String) (j : Nat) :
    ((setStatus t i s)[j]?).map nonStatus = (t[j]?).map nonStatus := by
  rcases eq_or_ne j i with rfl | h
  · rw [setStatus_getElem?_self]
    cases t[j]? <;> simp [nonStatus]
  · rw [setStatus_getElem?_ne t i j s h]

lemma saveTable_table (ok : Bool) (st : RunState) :
    (saveTable ok st).table = st.table := by
  unfold saveTable; split <;> rfl

lemma saveTable_file (ok : Bool) (st : RunState) :
    (saveTable ok st).file = if ok then some st.table else st.file := by
  unfold saveTable; split <;> simp_all

/-!
### Lemmas about `applyDecision`
-/

lemma applyDecision_statusWritten (env : RowEnv) (idx : Nat) (st : RunState)
    (d : Decision) :
    (applyDecision env idx st d).statusWritten = d.statusWritten := by
  rcases d with ⟨es, sw, sk⟩; cases sk <;> rfl

lemma applyDecision_aborted (env : RowEnv) (idx : Nat) (st : RunState)
    (d : Decision) :
    (applyDecision env idx st d).aborted =
      match d.save with
      | SaveKind.noSave => true
      | SaveKind.unguarded => !env.saveOk
      | SaveKind.guarded => false := by
  rcases d with ⟨es, sw, sk⟩; cases sk <;> rfl

lemma applyDecision_effects (env : RowEnv) (idx : Nat) (st : RunState)
    (d : Decision) :
    (applyDecision env idx st d).effects =
      d.effects ++
        match d.save with
        | SaveKind.noSave => []
        | SaveKind.unguarded => [Effect.save env.saveOk]
        | SaveKind.guarded => [Effect.save env.saveOk, Effect.sleep 600] := by
  rcases d with ⟨es, sw, sk⟩; cases sk <;> simp [applyDecision]

lemma applyDecision_table (env : RowEnv) (idx : Nat) (st : RunState)
    (d : Decision) :
    (applyDecision env idx st d).st.table =
      match d.statusWritten with
      | none => st.table
      | some s => setStatus st.table idx s := by
  rcases d with ⟨es, sw, sk⟩
  cases sk <;> cases sw <;> simp [applyDecision, saveTable_table]

lemma applyDecision_file_noSave (env : RowEnv) (idx : Nat) (st : RunState)
    (d : Decision) (h : d.save = SaveKind.noSave) :
    (applyDecision env idx st d).st.file = st.file := by
  rcases d with ⟨es, sw, sk⟩
  cases sk with
  | noSave => cases sw <;> rfl
  | unguarded => simp_all
  | guarded => simp_all

lemma applyDecision_file_saved (env : RowEnv) (idx : Nat) (st : RunState)
    (d : Decision) (h : d.save ≠ SaveKind.noSave) (hok : env.saveOk = true) :
    (applyDecision env idx st d).st.file =
      some ((applyDecision env idx st d).st.table) := by
  rcases d with ⟨es, sw, sk⟩
  cases sk with
  | noSave => exact absurd rfl h
  | unguarded => cases sw <;> simp [applyDecision, saveTable, hok]
  | guarded => cases sw <;> simp [applyDecision, saveTable, hok]

lemma applyDecision_file_failed (env : RowEnv) (idx : Nat) (st : RunState)
    (d : Decision) (hok : env.saveOk = false) :
    (applyDecision env idx st d).st.file = st.file := by
  rcases d with ⟨es, sw, sk⟩
  cases sk <;> cases sw <;> simp [applyDecision, saveTable, hok]

/-!
### Case lemmas about the per-row decision chain
-/

lemma classifyD_good (env : RowEnv) (pre : List Effect)
    (h : (classifyD env pre).save ≠ SaveKind.noSave) :
    (classifyD env pre).statusWritten = some "True" ∨
      (classifyD env pre).statusWritten = some "False" := by
  rcases hl : env.labelWaitErr with _ | e
  · simp only [classifyD, hl]
    split <;> simp
  · cases e with
    | timeout =>
      rcases hn : env.noResultsWaitErr with _ | e2
      · simp [classifyD, hl, hn]
      · cases e2 with
        | timeout => simp [classifyD, hl, hn]
        | other => exact absurd (by simp [classifyD, hl, hn]) h
    | other => simp [classifyD, hl]

lemma classifyD_safe (env : RowEnv) (pre : List Effect)
    (h : env.labelWaitErr = some Exc.timeout →
      env.noResultsWaitErr ≠ some Exc.other) :
    (classifyD env pre).save ≠ SaveKind.noSave := by
  rcases hl : env.labelWaitErr with _ | e
  · simp [classifyD, hl]
  · cases e with
    | timeout =>
      rcases hn : env.noResultsWaitErr with _ | e2
      · simp [classifyD, hl, hn]
      · cases e2 with
        | timeout => simp [classifyD, hl, hn]
        | other => exact absurd hn (h hl)
    | other => simp [classifyD, hl]

lemma classifyD_no_throttle (env : RowEnv) (pre : List Effect)
    (h : Effect.sleep 600 ∉ pre) :
    Effect.sleep 600 ∉ (classifyD env pre).effects := by
  rcases hl : env.labelWaitErr with _ | e
  · simp [classifyD, hl, h]
  · cases e with
    | timeout =>
      rcases hn : env.noResultsWaitErr with _ | e2
      · simp [classifyD, hl, hn, h]
      · cases e2 <;> simp [classifyD, hl, hn, h]
    | other => simp [classifyD, hl, h]

lemma finishD_good (env : RowEnv) (pre : List Effect)
    (h : (finishD env pre).save ≠ SaveKind.noSave) :
    (finishD env pre).statusWritten = some "True" ∨
      (finishD env pre).statusWritten = some "False" := by
  rcases hs : env.submitWaitErr with _ | e
  · rcases hc : env.submitClickErr with _ | e2
    · simp only [finishD, hs, hc] at h ⊢
      exact classifyD_good env _ h
    · cases e2 with
      | timeout =>
        simp only [finishD, hs, hc] at h ⊢
        exact classifyD_good env _ h
      | other => exact absurd (by simp [finishD, hs, hc]) h
  · cases e with
    | timeout =>
      simp only [finishD, hs] at h ⊢
      exact classifyD_good env _ h
    | other => exact absurd (by simp [finishD, hs]) h

lemma finishD_safe (env : RowEnv) (pre : List Effect)
    (h1 : env.labelWaitErr = some Exc.timeout →
      env.noResultsWaitErr ≠ some Exc.other)
    (h2 : env.submitWaitErr ≠ some Exc.other)
    (h3 : env.submitWaitErr = none → env.submitClickErr ≠ some Exc.other) :
    (finishD env pre).save ≠ SaveKind.noSave := by
  rcases hs : env.submitWaitErr with _ | e
  · rcases hc : env.submitClickErr with _ | e2
    · simpa [finishD, hs, hc] using classifyD_safe env _ h1
    · cases e2 with
      | timeout => simpa [finishD, hs, hc] using classifyD_safe env _ h1
      | other => exact absurd hc (h3 hs)
  · cases e with
    | timeout => simpa [finishD, hs] using classifyD_safe env _ h1
    | other => exact absurd hs h2

lemma finishD_no_throttle (env : RowEnv) (pre : List Effect)
    (h : Effect.sleep 600 ∉ pre) :
    Effect.sleep 600 ∉ (finishD env pre).effects := by
  rcases hs : env.submitWaitErr with _ | e
  · rcases hc : env.submitClickErr with _ | e2
    · simpa [finishD, hs, hc] using classifyD_no_throttle env _ (by simp [h])
    · cases e2 with
      | timeout =>
        simpa [finishD, hs, hc] using classifyD_no_throttle env _ (by simp [h])
      | other => simp [finishD, hs, hc, h]
  · cases e with
    | timeout => simpa [finishD, hs] using classifyD_no_throttle env _ (by simp [h])
    | other => simp [finishD, hs, h]

lemma afterNavD_good (env : RowEnv) (pre : List Effect)
    (h : (afterNavD env pre).save ≠ SaveKind.noSave) :
    (afterNavD env pre).statusWritten = some "True" ∨
      (afterNavD env pre).statusWritten = some "False" := by
  rcases hi : env.inputWaitErr with _ | e
  · by_cases hf : (!env.fillOk && !env.typeOk) = true
    · exact absurd (by simp [afterNavD, hi, hf]) h
    · have hf' : (!env.fillOk && !env.typeOk) = false := by
        revert hf; cases (!env.fillOk && !env.typeOk) <;> simp
      simp only [afterNavD, hi, hf', Bool.false_eq_true, if_false] at h ⊢
      exact finishD_good env _ h
  · cases e with
    | timeout => simp [afterNavD, hi]
    | other => exact absurd (by simp [afterNavD, hi]) h

lemma afterNavD_safe (env : RowEnv) (pre : List Effect)
    (h1 : env.labelWaitErr = some Exc.timeout →
      env.noResultsWaitErr ≠ some Exc.other)
    (h2 : env.submitWaitErr ≠ some Exc.other)
    (h3 : env.submitWaitErr = none → env.submitClickErr ≠ some Exc.other)
    (h4 : env.inputWaitErr ≠ some Exc.other)
    (h5 : env.fillOk = false → env.typeOk = true) :
    (afterNavD env pre).save ≠ SaveKind.noSave := by
  rcases hi : env.inputWaitErr with _ | e
  · have hf' : (!env.fillOk && !env.typeOk) = false := by
      cases hfo : env.fillOk with
      | true => simp [hfo]
      | false => simp [hfo, h5 hfo]
    simpa [afterNavD, hi, hf'] using finishD_safe env _ h1 h2 h3
  · cases e with
    | timeout => simp [afterNavD, hi]
    | other => exact absurd hi h4

lemma afterNavD_no_throttle (env : RowEnv) (pre : List Effect)
    (h : Effect.sleep 600 ∉ pre) :
    Effect.sleep 600 ∉ (afterNavD env pre).effects := by
  have hfe : Effect.sleep 600 ∉ fillEffects env := by
    unfold fillEffects
    cases env.fillOk <;> cases env.clickOk <;> cases env.ctrlAOk <;> simp
  rcases hi : env.inputWaitErr with _ | e
  · by_cases hf : (!env.fillOk && !env.typeOk) = true
    · simp [afterNavD, hi, hf, h, hfe]
    · have hf' : (!env.fillOk && !env.typeOk) = false := by
        revert hf; cases (!env.fillOk && !env.typeOk) <;> simp
      simp only [afterNavD, hi, hf']
      exact finishD_no_throttle env _ (by simp [h, hfe])
  · cases e with
    | timeout => simp [afterNavD, hi, h]
    | other => simp [afterNavD, hi, h]

lemma rowDecision_good (env : RowEnv) (c : String)
    (h : (rowDecision env c).save ≠ SaveKind.noSave) :
    (rowDecision env c).statusWritten = some "True" ∨
      (rowDecision env c).statusWritten = some "False" := by
  by_cases hc : c = ""
  · simp [rowDecision, hc]
  · rcases hn : env.navErr with _ | e
    · simp only [rowDecision, hc, hn, if_neg hc] at h ⊢
      exact afterNavD_good env _ h
    · cases e with
      | timeout =>
        cases hfb : env.navFallbackOk with
        | true =>
          simp only [rowDecision, hc, hn, hfb, if_neg hc, if_true] at h ⊢
          exact afterNavD_good env _ h
        | false => exact absurd (by simp [rowDecision, hc, hn, hfb]) h
      | other => simp [rowDecision, hc, hn]

lemma rowDecision_safe (env : RowEnv) (c : String) (h : envSafe env) :
    (rowDecision env c).save ≠ SaveKind.noSave := by
  obtain ⟨h1, h2, h3, h4, h5, h6, _⟩ := h
  by_cases hc : c = ""
  · simp [rowDecision, hc]
  · rcases hn : env.navErr with _ | e
    · simpa [rowDecision, hc, hn] using afterNavD_safe env _ h6 h4 h5 h2 h3
    · cases e with
      | timeout =>
        have hfb := h1 hn
        simpa [rowDecision, hc, hn, hfb] using afterNavD_safe env _ h6 h4 h5 h2 h3
      | other => simp [rowDecision, hc, hn]

lemma rowDecision_no_throttle (env : RowEnv) (c : String) :
    Effect.sleep 600 ∉ (rowDecision env c).effects := by
  by_cases hc : c = ""
  · simp [rowDecision, hc]
  · rcases hn : env.navErr with _ | e
    · simpa [rowDecision, hc, hn] using afterNavD_no_throttle env _ (by simp)
    · cases e with
      | timeout =>
        cases hfb : env.navFallbackOk with
        | true =>
          simpa [rowDecision, hc, hn, hfb] using afterNavD_no_throttle env _ (by simp)
        | false => simp [rowDecision, hc, hn, hfb]
      | other => simp [rowDecision, hc, hn]

/-!
### Lemmas about `processRow`
-/

lemma processRow_of_row (env : RowEnv) (idx : Nat) (st : RunState) (r : Row)
    (h : st.table[idx]? = some r) :
    processRow env idx st =
      applyDecision env idx st (rowDecision env (companyOf r)) := by
  simp [processRow, h]

lemma processRow_not_aborted (env : RowEnv) (idx : Nat) (st : RunState)
    (h : envSafe env) : (processRow env idx st).aborted = false := by
  rcases hrow : st.table[idx]? with _ | r
  · simp [processRow, hrow]
  · rw [processRow_of_row env idx st r hrow, applyDecision_aborted]
    have hs := rowDecision_safe env (companyOf r) h
    cases hsv : (rowDecision env (companyOf r)).save with
    | noSave => exact absurd hsv hs
    | unguarded => simp [h.2.2.2.2.2.2]
    | guarded => rfl

lemma processRow_status_good (env : RowEnv) (idx : Nat) (st : RunState)
    (r : Row) (hrow : st.table[idx]? = some r) (h : envSafe env) :
    (processRow env idx st).statusWritten = some "True" ∨
      (processRow env idx st).statusWritten = some "False" := by
  rw [processRow_of_row env idx st r hrow, applyDecision_statusWritten]
  exact rowDecision_good env _ (rowDecision_safe env _ h)

lemma processRow_table (env : RowEnv) (idx : Nat) (st : RunState) :
    (processRow env idx st).st.table =
      match (processRow env idx st).statusWritten with
      | none => st.table
      | some s => setStatus st.table idx s := by
  rcases hrow : st.table[idx]? with _ | r
  · simp [processRow, hrow]
  · rw [processRow_of_row env idx st r hrow, applyDecision_statusWritten,
      applyDecision_table]

lemma processRow_length (env : RowEnv) (idx : Nat) (st : RunState) :
    (processRow env idx st).st.table.length = st.table.length := by
  rw [processRow_table]
  rcases h : (processRow env idx st).statusWritten with _ | s <;>
    simp [setStatus_length]

lemma processRow_nonStatus (env : RowEnv) (idx : Nat) (st : RunState) (j : Nat) :
    (((processRow env idx st).st.table[j]?).map nonStatus) =
      ((st.table[j]?).map nonStatus) := by
  rw [processRow_table]
  rcases h : (processRow env idx st).statusWritten with _ | s
  · rfl
  · simp [setStatus_nonStatus]

lemma processRow_file_ok (env : RowEnv) (idx : Nat) (st : RunState) (r : Row)
    (hrow : st.table[idx]? = some r) (h : envSafe env) :
    (processRow env idx st).st.file =
      some ((processRow env idx st).st.table) := by
  rw [processRow_of_row env idx st r hrow]
  exact applyDecision_file_saved env idx st _
    (rowDecision_safe env _ h) h.2.2.2.2.2.2

/-!
### Lemmas about the loop
-/

lemma runLoopFrom_no_abort (envs : Nat → RowEnv) (flag : Nat → Bool)
    (hsafe : ∀ i, envSafe (envs i)) :
    ∀ count idx st j,
      (runLoopFrom envs flag count idx st).2.2 ≠ LoopExit.abortedAt j := by
  intro count
  induction count with
  | zero => intro idx st j; simp [runLoopFrom]
  | succ count ih =>
    intro idx st j
    simp only [runLoopFrom]
    by_cases hf : flag idx = true
    · simp [hf]
    · have hf' : flag idx = false := by revert hf; cases flag idx <;> simp
      rw [hf']
      simp only [Bool.false_eq_true, if_false,
        processRow_not_aborted (envs idx) idx st (hsafe idx)]
      exact ih (idx + 1) _ j

lemma runLoopFrom_frame (envs : Nat → RowEnv) (flag : Nat → Bool) :
    ∀ count idx st,
      ((runLoopFrom envs flag count idx st).1.table.length = st.table.length) ∧
      ∀ j : Nat,
        (((runLoopFrom envs flag count idx st).1.table[j]?).map nonStatus) =
          ((st.table[j]?).map nonStatus) := by
  intro count
  induction count with
  | zero => intro idx st; simp [runLoopFrom]
  | succ count ih =>
    intro idx st
    simp only [runLoopFrom]
    by_cases hf : flag idx = true
    · simp [hf]
    · have hf' : flag idx = false := by revert hf; cases flag idx <;> simp
      rw [hf']
      simp only [Bool.false_eq_true, if_false]
      by_cases ha : (processRow (envs idx) idx st).aborted = true
      · simp only [ha, if_true]
        exact ⟨processRow_length _ _ _, processRow_nonStatus _ _ _⟩
      · have ha' : (processRow (envs idx) idx st).aborted = false := by
          revert ha; cases (processRow (envs idx) idx st).aborted <;> simp
        rw [ha']
        simp only [Bool.false_eq_true, if_false]
        obtain ⟨ih1, ih2⟩ := ih (idx + 1) (processRow (envs idx) idx st).st
        refine ⟨?_, fun j => ?_⟩
        · rw [ih1, processRow_length]
        · rw [ih2 j, processRow_nonStatus]

lemma runLoopFrom_flag_trunc (envs : Nat → RowEnv) (n : Nat) :
    ∀ count idx st, idx ≤ n →
      ((runLoopFrom envs (flagFrom n) count idx st).1 =
        (runLoopFrom envs noFlag (min count (n - idx)) idx st).1 ∧
       (runLoopFrom envs (flagFrom n) count idx st).2.1 =
        (runLoopFrom envs noFlag (min count (n - idx)) idx st).2.1) := by
  intro count
  induction count with
  | zero =>
    intro idx st _
    have h0 : min 0 (n - idx) = 0 := by omega
    rw [h0]
    exact ⟨rfl, rfl⟩
  | succ count ih =>
    intro idx st hidx
    by_cases hn : n ≤ idx
    · have hf : flagFrom n idx = true := by simp [flagFrom, hn]
      have hmin : min (count + 1) (n - idx) = 0 := by omega
      rw [hmin]
      simp [runLoopFrom, hf]
    · have hf : flagFrom n idx = false := by
        simp only [flagFrom, decide_eq_false_iff_not]
        omega
      have hmin : min (count + 1) (n - idx) = min count (n - (idx + 1)) + 1 := by
        omega
      rw [hmin]
      simp only [runLoopFrom, hf, noFlag, Bool.false_eq_true, if_false]
      by_cases ha : (processRow (envs idx) idx st).aborted = true
      · rw [ha]
        simp
      · have ha' : (processRow (envs idx) idx st).aborted = false := by
          revert ha; cases (processRow (envs idx) idx st).aborted <;> simp
        rw [ha']
        simp only [Bool.false_eq_true, if_false]
        obtain ⟨e1, e2⟩ := ih (idx + 1) (processRow (envs idx) idx st).st
          (by omega)
        exact ⟨e1, by rw [e2]⟩

lemma inv_init (t0 : List Row) : Inv t0 0 ⟨t0, none⟩ := by
  exact ⟨rfl, fun j _ => rfl, fun j hj => absurd hj (Nat.not_lt_zero j),
    fun _ => rfl, fun h0 => absurd h0 (Nat.lt_irrefl 0)⟩

lemma inv_step (env : RowEnv) (t0 : List Row) (k : Nat) (st : RunState)
    (hsafe : envSafe env) (hk : k < t0.length) (hinv : Inv t0 k st) :
    Inv t0 (k + 1) (processRow env k st).st := by
  obtain ⟨hlen, hup, hdone, _, _⟩ := hinv
  have hk' : k < st.table.length := by omega
  obtain ⟨r, hrow⟩ : ∃ r, st.table[k]? = some r := by
    rcases h : st.table[k]? with _ | r
    · rw [List.getElem?_eq_none_iff] at h; omega
    · exact ⟨r, rfl⟩
  obtain ⟨s, hsw, hTF⟩ :
      ∃ s, (processRow env k st).statusWritten = some s ∧
        (s = "True" ∨ s = "False") := by
    rcases processRow_status_good env k st r hrow hsafe with h | h
    · exact ⟨"True", h, Or.inl rfl⟩
    · exact ⟨"False", h, Or.inr rfl⟩
  have htab : (processRow env k st).st.table = setStatus st.table k s := by
    rw [processRow_table, hsw]
  have hfile' : (processRow env k st).st.file =
      some ((processRow env k st).st.table) :=
    processRow_file_ok env k st r hrow hsafe
  refine ⟨?_, ?_, ?_, ?_, ?_⟩
  · rw [htab, setStatus_length, hlen]
  · intro j hj
    rw [htab, setStatus_getElem?_ne st.table k j s (by omega)]
    exact hup j (by omega)
  · intro j hj
    rcases Nat.lt_succ_iff_lt_or_eq.mp hj with hj' | rfl
    · rw [htab, setStatus_getElem?_ne st.table k j s (by omega)]
      exact hdone j hj'
    · rw [htab, setStatus_getElem?_self, hrow]
      rcases hTF with rfl | rfl
      · exact Or.inl rfl
      · exact Or.inr rfl
  · intro h0; exact absurd h0 (Nat.succ_ne_zero k)
  · intro _; exact hfile'

lemma inv_loop (envs : Nat → RowEnv) (t0 : List Row)
    (hsafe : ∀ i, envSafe (envs i)) :
    ∀ count k st, k + count ≤ t0.length → Inv t0 k st →
      (runLoopFrom envs noFlag count k st).2.2 = LoopExit.normal ∧
      Inv t0 (k + count) (runLoopFrom envs noFlag count k st).1 := by
  intro count
  induction count with
  | zero =>
    intro k st _ hinv
    simpa [runLoopFrom] using hinv
  | succ count ih =>
    intro k st hle hinv
    simp only [runLoopFrom, noFlag, Bool.false_eq_true, if_false]
    rw [processRow_not_aborted (envs k) k st (hsafe k)]
    simp only [Bool.false_eq_true, if_false]
    have hk : k < t0.length := by omega
    have hstep := inv_step (envs k) t0 k st (hsafe k) hk hinv
    obtain ⟨ih1, ih2⟩ := ih (k + 1) _ (by omega) hstep
    refine ⟨ih1, ?_⟩
    have hkc : k + (count + 1) = (k + 1) + count := by omega
    rw [hkc]
    exact ih2

lemma prepare_length (inp : InputTable) :
    (prepare inp).length = inp.rows.length := by
  unfold prepare; split <;> simp

lemma prepare_nonStatus (inp : InputTable) (j : Nat) :
    (((prepare inp)[j]?).map nonStatus) = ((inp.rows[j]?).map nonStatus) := by
  unfold prepare
  split
  · rfl
  · rw [List.getElem?_map]
    cases inp.rows[j]? <;> rfl

lemma prepare_status_blank (inp : InputTable) (h : inp.hasStatusCol = false)
    (j : Nat) (hj : j < inp.rows.length) :
    (((prepare inp)[j]?).map Row.status) = some "" := by
  simp only [prepare, h, Bool.false_eq_true, if_false]
  rw [List.getElem?_map]
  rcases hr : inp.rows[j]? with _ | r
  · rw [List.getElem?_eq_none_iff] at hr; omega
  · rfl

/-!
### Claim theorems
-/

/-- Claim C1, counterexample: the code tests substring containment
(`"Prime Award Results" in label_text`), not equality.  A results label
reading `"1,234 Prime Award Results"` differs from the expected phrase yet
the row's status is set to `"True"`, contradicting "status is True if and
only if the label's text exactly equals the expected phrase; a label that
merely contains it as a substring yields False". -/
theorem c1_counterexample :
    (processRow { labelText := some "1,234 Prime Award Results" } 0
        ⟨[⟨some "Acme", "", []⟩], none⟩).statusWritten = some "True" ∧
      "1,234 Prime Award Results" ≠ expectedLabel :=
  ⟨by decide, by decide⟩

/-- Claim C1 (amended): when the results label appears, the row's status is
`"True"` iff the label's stripped text contains the expected phrase as a
substring (exact equality is the special case; any superstring also gives
`"True"`); unreadable text is treated as `""` and therefore yields
`"False"`. -/
theorem c1_contains (txt c : String) (hc : pyStrip c ≠ "") :
    ((processRow { labelText := some txt } 0
        ⟨[⟨some c, "", []⟩], none⟩).statusWritten = some "True" ↔
      expectedLabel.toList <:+: (pyStrip txt).toList) := by
  have hrow : (([⟨some c, "", []⟩] : List Row))[0]? = some ⟨some c, "", []⟩ := rfl
  rw [processRow_of_row _ _ _ _ hrow, applyDecision_statusWritten]
  have hcomp : companyOf ⟨some c, "", []⟩ = pyStrip c := rfl
  rw [hcomp]
  simp only [rowDecision, if_neg hc, afterNavD, finishD, classifyD, fillEffects]
  cases hs : strContains expectedLabel (pyStrip txt) with
  | false =>
    simp only [hs, Bool.false_eq_true, if_false]
    constructor
    · intro h; exact absurd h (by simp)
    · intro h
      have hts : strContains expectedLabel (pyStrip txt) = true := by
        unfold strContains
        exact decide_eq_true h
      rw [hs] at hts
      exact absurd hts (by simp)
  | true =>
    simp only [hs, if_true]
    constructor
    · intro _
      have hts := hs
      unfold strContains at hts
      exact of_decide_eq_true hts
    · intro _; rfl

theorem c1_contains_witness :
    (pyStrip "Acme" ≠ "") ∧
    ((processRow { labelText := some "Prime Award Results" } 0
        ⟨[⟨some "Acme", "", []⟩], none⟩).statusWritten = some "True" ↔
      expectedLabel.toList <:+: (pyStrip "Prime Award Results").toList) :=
  ⟨by decide, c1_contains "Prime Award Results" "Acme" (by decide)⟩

/-- Claim C4 (code bug): pandas reads an empty CSV cell as NaN and
`str(nan or "")` is the string `"nan"` (NaN is truthy in Python), so the
empty-cell guard does not fire: such a row performs browser interaction
(it navigates and searches for the literal text "nan") instead of being
marked `False` without any interaction.  A whitespace-only cell, by
contrast, behaves exactly as claimed: no browser effect and status
`"False"`. -/
theorem c4_empty_cell_bug :
    companyOf ⟨none, "", []⟩ = "nan" ∧
    Effect.navigate ∈ (processRow {} 0 ⟨[⟨none, "", []⟩], none⟩).effects ∧
    ((processRow {} 0 ⟨[⟨some "   ", "", []⟩], none⟩).effects.all
      fun e => !e.isBrowser) = true ∧
    (processRow {} 0 ⟨[⟨some "   ", "", []⟩], none⟩).statusWritten =
      some "False" :=
  ⟨by decide, by decide, by decide, by decide⟩

/-- Claim C7 (amended): a missing required company column is fatal before
any row is processed and before any output is written (`run` yields no
state, no effects, no writes); the claim's "only missing input file and
missing required column are fatal" part is refuted by the
counterexample. -/
theorem c7_missing_column :
    ∀ (inp : InputTable) (envs : Nat → RowEnv) (flag : Nat → Bool),
      inp.hasCompanyCol = false → run inp envs flag = none := by
  intro inp envs flag h
  simp [run, h]

theorem c7_missing_column_witness :
    ((⟨false, false, ([] : List Row)⟩ : InputTable).hasCompanyCol = false) ∧
    run ⟨false, false, ([] : List Row)⟩ (fun _ => {}) noFlag = none :=
  ⟨rfl, c7_missing_column _ _ _ rfl⟩

/-- Claim C7, counterexample: a run whose input table does have the
required column can still die fatally mid-run — here the unguarded
`keyboard.type` fallback raises on row 0 and the exception propagates out
of the loop — so "only missing input file and missing required column are
fatal" is false. -/
theorem c7_counterexample :
    (⟨true, false, [⟨some "A", "", []⟩]⟩ : InputTable).hasCompanyCol = true ∧
    (run ⟨true, false, [⟨some "A", "", []⟩]⟩
        (fun _ => { fillOk := false, typeOk := false }) noFlag).map
      (fun r => r.2.2) = some (LoopExit.abortedAt 0) :=
  ⟨rfl, by decide⟩

/-- Claim C9, counterexample: a row skipped as empty finishes without
aborting (the loop proceeds to the next row) yet its trace contains no
0.6-second throttle sleep — the `continue` statements jump over
`time.sleep(0.6)` — and likewise for a row that fails navigation with a
non-timeout error. -/
theorem c9_counterexample :
    (processRow {} 0 ⟨[⟨some "   ", "", []⟩], none⟩).aborted = false ∧
    (processRow {} 0 ⟨[⟨some "   ", "", []⟩], none⟩).effects =
      [Effect.save true] ∧
    Effect.sleep 600 ∉
      (processRow {} 0 ⟨[⟨some "   ", "", []⟩], none⟩).effects ∧
    Effect.sleep 600 ∉
      (processRow { navErr := some Exc.other } 0
        ⟨[⟨some "A", "", []⟩], none⟩).effects :=
  ⟨by decide, by decide, by decide, by decide⟩

/-- Claim C9 (amended): the 0.6-second throttle delay executes exactly for
rows whose path reaches the guarded classification-save stage; rows skipped
as empty, rows failing navigation with a non-timeout error, and rows whose
search input never appears take an early `continue` without the delay. -/
theorem c9_throttle (env : RowEnv) (idx : Nat) (st : RunState) (r : Row)
    (hrow : st.table[idx]? = some r) :
    ((rowDecision env (companyOf r)).save = SaveKind.guarded →
      Effect.sleep 600 ∈ (processRow env idx st).effects) ∧
    ((rowDecision env (companyOf r)).save ≠ SaveKind.guarded →
      Effect.sleep 600 ∉ (processRow env idx st).effects) ∧
    (companyOf r = "" ∨ env.navErr = some Exc.other ∨
        env.inputWaitErr = some Exc.timeout →
      (rowDecision env (companyOf r)).save ≠ SaveKind.guarded) := by
  rw [processRow_of_row env idx st r hrow, applyDecision_effects]
  refine ⟨?_, ?_, ?_⟩
  · intro h
    rw [h]
    simp
  · intro h
    have hnt := rowDecision_no_throttle env (companyOf r)
    cases hsv : (rowDecision env (companyOf r)).save with
    | noSave => simp [hnt]
    | unguarded => simp [hnt]
    | guarded => exact absurd hsv h
  · rintro (hc | hn | hi)
    · simp [rowDecision, hc]
    · by_cases hc : companyOf r = ""
      · simp [rowDecision, hc]
      · simp [rowDecision, hc, hn]
    · by_cases hc : companyOf r = ""
      · simp [rowDecision, hc]
      · rcases hn2 : env.navErr with _ | e
        · simp [rowDecision, hc, hn2, afterNavD, hi]
        · cases e with
          | timeout =>
            cases hfb : env.navFallbackOk with
            | true => simp [rowDecision, hc, hn2, hfb, afterNavD, hi]
            | false => simp [rowDecision, hc, hn2, hfb]
          | other => simp [rowDecision, hc, hn2]

theorem c9_throttle_witness :
    ((⟨[⟨some "A", "", []⟩], none⟩ : RunState).table[0]? =
      some ⟨some "A", "", []⟩) ∧
    (((rowDecision {} (companyOf ⟨some "A", "", []⟩)).save = SaveKind.guarded →
      Effect.sleep 600 ∈
        (processRow {} 0 ⟨[⟨some "A", "", []⟩], none⟩).effects) ∧
    ((rowDecision {} (companyOf ⟨some "A", "", []⟩)).save ≠ SaveKind.guarded →
      Effect.sleep 600 ∉
        (processRow {} 0 ⟨[⟨some "A", "", []⟩], none⟩).effects) ∧
    (companyOf ⟨some "A", "", []⟩ = "" ∨
        ({} : RowEnv).navErr = some Exc.other ∨
        ({} : RowEnv).inputWaitErr = some Exc.timeout →
      (rowDecision {} (companyOf ⟨some "A", "", []⟩)).save ≠
        SaveKind.guarded)) :=
  ⟨rfl, c9_throttle {} 0 ⟨[⟨some "A", "", []⟩], none⟩ ⟨some "A", "", []⟩ rfl⟩

/-- Claim C10: `run` accepts any browser-name string, lowercases it, and
looks it up in the engine dictionary, silently defaulting to chromium for
anything unknown; only the argparse layer restricts `--browser` to exactly
the three valid names. -/
theorem c10_browser :
    (∀ s : String, pyLower s = "chromium" →
      browserLauncher s = Engine.chromium) ∧
    (∀ s : String, pyLower s = "firefox" →
      browserLauncher s = Engine.firefox) ∧
    (∀ s : String, pyLower s = "webkit" →
      browserLauncher s = Engine.webkit) ∧
    (∀ s : String, pyLower s ≠ "chromium" → pyLower s ≠ "firefox" →
      pyLower s ≠ "webkit" → browserLauncher s = Engine.chromium) ∧
    (∀ s : String, cliAcceptsBrowser s = true ↔
      (s = "chromium" ∨ s = "firefox" ∨ s = "webkit")) := by
  refine ⟨?_, ?_, ?_, ?_, ?_⟩
  · intro s h; unfold browserLauncher; rw [h]; decide
  · intro s h; unfold browserLauncher; rw [h]; decide
  · intro s h; unfold browserLauncher; rw [h]; decide
  · intro s h1 h2 h3
    unfold browserLauncher
    split
    · next heq => exact absurd heq h1
    · next heq => exact absurd heq h2
    · next heq => exact absurd heq h3
    · rfl
  · intro s
    simp [cliAcceptsBrowser, browserChoices, List.contains, List.elem_cons]

theorem c10_browser_witness :
    pyLower "FIREFOX" = "firefox" ∧
    browserLauncher "FIREFOX" = Engine.firefox ∧
    pyLower "Safari" ≠ "chromium" ∧
    browserLauncher "Safari" = Engine.chromium :=
  ⟨by decide, c10_browser.2.1 "FIREFOX" (by decide), by decide,
    c10_browser.2.2.2.1 "Safari" (by decide) (by decide) (by decide)⟩

/-- Claim C2, counterexample: a `networkidle` timeout followed by failure
of the fallback `domcontentloaded` goto is caught by nothing — the
exception propagates, the run aborts at row 0 with no status set, and
row 1 is never processed — refuting "any failure during navigation ...
sets that row's status to False and the loop continues; no per-row
external-interaction failure ever aborts the run". -/
theorem c2_counterexample :
    (run ⟨true, false, [⟨some "A", "", []⟩, ⟨some "B", "", []⟩]⟩
        (fun _ => { navErr := some Exc.timeout, navFallbackOk := false })
        noFlag).map
      (fun r => (r.2.2, r.1.table.map Row.status)) =
      some (LoopExit.abortedAt 0, ["", ""]) := by decide

/-- Claim C2 (amended): when only the individually guarded interactions
fail (fallback navigation succeeds when needed, selector waits and the
submit click fail only by timeout, the type fallback succeeds when needed,
the no-results wait fails only by timeout, saves succeed), a row never
aborts and always writes a `"True"`/`"False"` status, and the loop never
exits by abort; outside these conditions an exception can propagate and
abort the run (see the counterexample). -/
theorem c2_guarded :
    (∀ (env : RowEnv) (idx : Nat) (st : RunState) (r : Row),
      envSafe env → st.table[idx]? = some r →
      ((processRow env idx st).aborted = false ∧
        ((processRow env idx st).statusWritten = some "True" ∨
         (processRow env idx st).statusWritten = some "False"))) ∧
    (∀ (envs : Nat → RowEnv) (flag : Nat → Bool) (count idx : Nat)
        (st : RunState) (j : Nat), (∀ i, envSafe (envs i)) →
      (runLoopFrom envs flag count idx st).2.2 ≠ LoopExit.abortedAt j) := by
  constructor
  · intro env idx st r hsafe hrow
    exact ⟨processRow_not_aborted env idx st hsafe,
      processRow_status_good env idx st r hrow hsafe⟩
  · intro envs flag count idx st j hsafe
    exact runLoopFrom_no_abort envs flag hsafe count idx st j

theorem c2_guarded_witness :
    envSafe ({} : RowEnv) ∧
    ((⟨[⟨some "A", "", []⟩], none⟩ : RunState).table[0]? =
      some ⟨some "A", "", []⟩) ∧
    ((processRow {} 0 ⟨[⟨some "A", "", []⟩], none⟩).aborted = false ∧
      ((processRow {} 0 ⟨[⟨some "A", "", []⟩], none⟩).statusWritten =
          some "True" ∨
       (processRow {} 0 ⟨[⟨some "A", "", []⟩], none⟩).statusWritten =
          some "False")) :=
  ⟨by decide, rfl,
    c2_guarded.1 {} 0 ⟨[⟨some "A", "", []⟩], none⟩ ⟨some "A", "", []⟩
      (by decide) rfl⟩

/-- Claim C3, counterexample: both rows are fully handled (statuses written
in memory, loop ends normally) yet the table is never rewritten to the
output path — every `to_csv` fails, which the code tolerates on this path —
so "after every row ... the entire table is rewritten to the output path
before the next row begins" is false; an interruption here would find no
output file at all. -/
theorem c3_counterexample :
    (run ⟨true, false, [⟨some "A", "", []⟩, ⟨some "B", "", []⟩]⟩
        (fun _ => { saveOk := false }) noFlag).map
      (fun r => (r.1.file, r.1.table.map Row.status, r.2.2)) =
      some (none, ["False", "False"], LoopExit.normal) := by decide

/-- Claim C3 (amended): a write of the whole table is attempted after every
handled row, and when the writes succeed (and the status column was added
by the run), a run interrupted before iteration `n` leaves the output file
holding exactly the current table: every processed row's status is
`"True"`/`"False"`, every unprocessed row's status is blank, and the file
matches the in-memory table as soon as one row was handled (no file exists
when no row was). -/
theorem c3_durability (inp : InputTable) (envs : Nat → RowEnv) (n : Nat)
    (h1 : inp.hasCompanyCol = true) (h2 : inp.hasStatusCol = false)
    (hsafe : ∀ i, envSafe (envs i)) :
    ∃ st effs ex, run inp envs (flagFrom n) = some (st, effs, ex) ∧
      st.table.length = inp.rows.length ∧
      (∀ j : Nat, j < min inp.rows.length n →
        ((st.table[j]?).map Row.status = some "True" ∨
         (st.table[j]?).map Row.status = some "False")) ∧
      (∀ j : Nat, min inp.rows.length n ≤ j → j < inp.rows.length →
        (st.table[j]?).map Row.status = some "") ∧
      (0 < min inp.rows.length n → st.file = some st.table) ∧
      (min inp.rows.length n = 0 → st.file = none) := by
  have hrun : run inp envs (flagFrom n) =
      some (runLoopFrom envs (flagFrom n) (prepare inp).length 0
        ⟨prepare inp, none⟩) := by
    simp [run, h1]
  obtain ⟨e1, _⟩ := runLoopFrom_flag_trunc envs n (prepare inp).length 0
    ⟨prepare inp, none⟩ (Nat.zero_le n)
  rw [Nat.sub_zero] at e1
  have hlen := prepare_length inp
  obtain ⟨_, hinv⟩ := inv_loop envs (prepare inp) hsafe
    (min (prepare inp).length n) 0 ⟨prepare inp, none⟩ (by omega) (inv_init _)
  rw [Nat.zero_add] at hinv
  rw [← e1] at hinv
  obtain ⟨hl, hup, hdone, hf0, hf1⟩ := hinv
  refine ⟨_, _, _, hrun, ?_, ?_, ?_, ?_, ?_⟩
  · rw [hl, hlen]
  · intro j hj
    exact hdone j (by omega)
  · intro j hj1 hj2
    rw [hup j (by omega)]
    exact prepare_status_blank inp h2 j hj2
  · intro hk
    exact hf1 (by omega)
  · intro hk
    exact hf0 (by omega)

theorem c3_durability_witness :
    ((⟨true, false, [⟨some "A", "", []⟩]⟩ : InputTable).hasCompanyCol = true) ∧
    ((⟨true, false, [⟨some "A", "", []⟩]⟩ : InputTable).hasStatusCol = false) ∧
    (∀ i : Nat, envSafe ((fun _ => ({} : RowEnv)) i)) ∧
    (∃ st effs ex,
      run ⟨true, false, [⟨some "A", "", []⟩]⟩ (fun _ => ({} : RowEnv))
          (flagFrom 5) = some (st, effs, ex) ∧
      st.table.length =
        (⟨true, false, [⟨some "A", "", []⟩]⟩ : InputTable).rows.length ∧
      (∀ j : Nat,
        j < min (⟨true, false, [⟨some "A", "", []⟩]⟩ : InputTable).rows.length 5 →
        ((st.table[j]?).map Row.status = some "True" ∨
         (st.table[j]?).map Row.status = some "False")) ∧
      (∀ j : Nat,
        min (⟨true, false, [⟨some "A", "", []⟩]⟩ : InputTable).rows.length 5 ≤ j →
        j < (⟨true, false, [⟨some "A", "", []⟩]⟩ : InputTable).rows.length →
        (st.table[j]?).map Row.status = some "") ∧
      (0 < min (⟨true, false, [⟨some "A", "", []⟩]⟩ : InputTable).rows.length 5 →
        st.file = some st.table) ∧
      (min (⟨true, false, [⟨some "A", "", []⟩]⟩ : InputTable).rows.length 5 = 0 →
        st.file = none)) :=
  ⟨rfl, rfl, fun _ => (by decide : envSafe ({} : RowEnv)),
    c3_durability ⟨true, false, [⟨some "A", "", []⟩]⟩ (fun _ => {}) 5 rfl rfl
      (fun _ => (by decide : envSafe ({} : RowEnv)))⟩

/-- Claim C5: the signal handler only sets the process-wide flag (the run
state is untouched), and a run with the flag raised from iteration `n`
onward produces exactly the state and effect trace of the uninterrupted run
truncated to its first `n` iterations: rows before `n` run to completion
and are saved exactly as without interruption, and the loop stops at the
row boundary, altering nothing already saved. -/
theorem c5_signal :
    (∀ s : ProcState, (signalHandler s).runSt = s.runSt ∧
      (signalHandler s).interrupted = true) ∧
    (∀ (inp : InputTable) (envs : Nat → RowEnv) (n : Nat),
      (run inp envs (flagFrom n)).map (fun r => (r.1, r.2.1)) =
        runTrunc inp envs n) := by
  constructor
  · intro s
    exact ⟨rfl, rfl⟩
  · intro inp envs n
    unfold run runTrunc
    by_cases h : inp.hasCompanyCol = true
    · simp only [h, if_true]
      obtain ⟨e1, e2⟩ := runLoopFrom_flag_trunc envs n (prepare inp).length 0
        ⟨prepare inp, none⟩ (Nat.zero_le n)
      rw [Nat.sub_zero] at e1 e2
      simp [e1, e2]
    · have h' : inp.hasCompanyCol = false := by
        revert h; cases inp.hasCompanyCol <;> simp
      simp [h']

/-- Claim C6, counterexample: the claim says a persistence failure is
logged and non-fatal for every row, but only the classification-path save
is guarded; here the empty-company row's `to_csv` (line 74) fails and the
exception propagates, aborting the run at row 0 — row 1 is never
processed. -/
theorem c6_counterexample :
    (run ⟨true, false, [⟨some "   ", "", []⟩, ⟨some "B", "", []⟩]⟩
        (fun _ => { saveOk := false }) noFlag).map
      (fun r => (r.2.2, r.1.table.map Row.status)) =
      some (LoopExit.abortedAt 0, ["False", ""]) := by decide

/-- Claim C6 (amended): a failure of the guarded save (the end-of-row
`to_csv` after classification) is non-fatal: the row does not abort, the
in-memory status just written is kept, and the output file is simply left
unchanged; by contrast a failure of one of the unguarded early-exit saves
(empty company, navigation non-timeout error, input-wait timeout) aborts
the run. -/
theorem c6_guarded_save (env : RowEnv) (idx : Nat) (st : RunState) (r : Row)
    (hrow : st.table[idx]? = some r) (hfail : env.saveOk = false) :
    ((rowDecision env (companyOf r)).save = SaveKind.guarded →
      ((processRow env idx st).aborted = false ∧
       (processRow env idx st).st.file = st.file ∧
       ∃ s, (processRow env idx st).statusWritten = some s ∧
         (processRow env idx st).st.table = setStatus st.table idx s)) ∧
    ((rowDecision env (companyOf r)).save = SaveKind.unguarded →
      (processRow env idx st).aborted = true) := by
  rw [processRow_of_row env idx st r hrow]
  constructor
  · intro hg
    refine ⟨?_, ?_, ?_⟩
    · rw [applyDecision_aborted, hg]
    · exact applyDecision_file_failed env idx st _ hfail
    · have hgood := rowDecision_good env (companyOf r) (by rw [hg]; simp)
      obtain ⟨s, hsw⟩ :
          ∃ s, (rowDecision env (companyOf r)).statusWritten = some s := by
        rcases hgood with h | h
        exacts [⟨"True", h⟩, ⟨"False", h⟩]
      exact ⟨s, by rw [applyDecision_statusWritten, hsw],
        by rw [applyDecision_table, hsw]⟩
  · intro hu
    rw [applyDecision_aborted, hu, hfail]
    rfl

theorem c6_guarded_save_witness :
    ((⟨[⟨some "A", "", []⟩], none⟩ : RunState).table[0]? =
      some ⟨some "A", "", []⟩) ∧
    (({ saveOk := false } : RowEnv).saveOk = false) ∧
    (((rowDecision { saveOk := false }
        (companyOf ⟨some "A", "", []⟩)).save = SaveKind.guarded →
      ((processRow { saveOk := false } 0
          ⟨[⟨some "A", "", []⟩], none⟩).aborted = false ∧
       (processRow { saveOk := false } 0
          ⟨[⟨some "A", "", []⟩], none⟩).st.file =
        (⟨[⟨some "A", "", []⟩], none⟩ : RunState).file ∧
       ∃ s, (processRow { saveOk := false } 0
          ⟨[⟨some "A", "", []⟩], none⟩).statusWritten = some s ∧
         (processRow { saveOk := false } 0
            ⟨[⟨some "A", "", []⟩], none⟩).st.table =
          setStatus (⟨[⟨some "A", "", []⟩], none⟩ : RunState).table 0 s)) ∧
    ((rowDecision { saveOk := false }
        (companyOf ⟨some "A", "", []⟩)).save = SaveKind.unguarded →
      (processRow { saveOk := false } 0
          ⟨[⟨some "A", "", []⟩], none⟩).aborted = true)) :=
  ⟨rfl, rfl,
    c6_guarded_save { saveOk := false } 0 ⟨[⟨some "A", "", []⟩], none⟩
      ⟨some "A", "", []⟩ rfl rfl⟩

/-- Claim C8: for every run on a table with the required column, the output
table has the input's length with rows in input order, and every row's
company cell and remaining non-status cells are unchanged — only the status
field (added blank when absent) is ever written. -/
theorem c8_frame (inp : InputTable) (envs : Nat → RowEnv) (flag : Nat → Bool)
    (h : inp.hasCompanyCol = true) :
    ∃ st effs ex, run inp envs flag = some (st, effs, ex) ∧
      st.table.length = inp.rows.length ∧
      ∀ j : Nat, ((st.table[j]?).map nonStatus) =
        ((inp.rows[j]?).map nonStatus) := by
  have hrun : run inp envs flag =
      some (runLoopFrom envs flag (prepare inp).length 0
        ⟨prepare inp, none⟩) := by
    simp [run, h]
  obtain ⟨hl, hj⟩ := runLoopFrom_frame envs flag (prepare inp).length 0
    ⟨prepare inp, none⟩
  refine ⟨_, _, _, hrun, ?_, ?_⟩
  · rw [hl]
    exact prepare_length inp
  · intro j
    rw [hj j]
    exact prepare_nonStatus inp j

theorem c8_frame_witness :
    ((⟨true, false, [⟨some "A", "x", [some "z"]⟩]⟩ : InputTable).hasCompanyCol
      = true) ∧
    (∃ st effs ex,
      run ⟨true, false, [⟨some "A", "x", [some "z"]⟩]⟩ (fun _ => ({} : RowEnv))
          noFlag = some (st, effs, ex) ∧
      st.table.length =
        (⟨true, false, [⟨some "A", "x", [some "z"]⟩]⟩ : InputTable).rows.length ∧
      ∀ j : Nat, ((st.table[j]?).map nonStatus) =
        (((⟨true, false, [⟨some "A", "x", [some "z"]⟩]⟩ :
          InputTable).rows[j]?).map nonStatus)) :=
  ⟨rfl, c8_frame ⟨true, false, [⟨some "A", "x", [some "z"]⟩]⟩
    (fun _ => {}) noFlag rfl⟩

end SearchBot
